import Mathlib

/-!
Verification of the quickpin event fan-out core and profile model.

Shallow embedding of:
- `src/lib/app/views/notification.py` (`NotificationView.index`, `NotificationView._stream`)
- `src/lib/model/profile.py` (`Profile.__init__`, `Profile.as_dict`,
  `ProfileUsername.__init__`, `ProfileNote.as_dict`)
-/

namespace Quickpin

/-! ## Notification view: data model -/

/-- A data message yielded by `pubsub.listen()` after decoding, i.e. the
`(channel, data)` pair the streaming loop consumes
(notification.py:55-56, both fields `.decode('utf8')`-ed to strings). -/
structure Msg where
  channel : String
  data : String
deriving DecidableEq, Repr

/-- The literal left brace character (code point 123). -/
def lbrace : Char := Char.ofNat 123

/-- The literal right brace character (code point 125). -/
def rbrace : Char := Char.ofNat 125

/-- Embedding of Python `str.format` restricted to the template grammar the
source uses: plain positional `\x7b\x7d` slots, with `\x7b\x7b` / `\x7d\x7d`
as brace escapes.  A lone or malformed brace, or a slot with no remaining
argument, is an error (`none`), matching Python's `ValueError` / `IndexError`.
Named fields and format specs never occur in the source's template and are
modelled as errors. -/
def pyFormat : List Char → List String → Option (List Char)
  | [], _ => some []
  | c :: rest, args =>
    if c = lbrace then
      match rest with
      | c2 :: rest2 =>
        if c2 = rbrace then
          match args with
          | a :: args2 => (pyFormat rest2 args2).map (fun t => a.data ++ t)
          | [] => none
        else if c2 = lbrace then
          (pyFormat rest2 args).map (fun t => lbrace :: t)
        else none
      | [] => none
    else if c = rbrace then
      match rest with
      | c2 :: rest2 =>
        if c2 = rbrace then (pyFormat rest2 args).map (fun t => rbrace :: t)
        else none
      | [] => none
    else
      (pyFormat rest args).map (fun t => c :: t)

/-- The SSE frame template from notification.py:57,
`id: \x7b\x7d\nevent: \x7b\x7d\ndata: \x7b\x7d\n\n`, as a character list. -/
def sseTemplate : List Char :=
  "id: \x7b\x7d\nevent: \x7b\x7d\ndata: \x7b\x7d\n\n".data

/-- The frame yielded for one message (notification.py:57):
`'id: \x7b\x7d\nevent: \x7b\x7d\ndata: \x7b\x7d\n\n'.format(event_id, channel, data)`.
`Nat.repr` embeds Python's decimal rendering of the (non-negative) `event_id`.
The `.getD []` default is unreachable: formatting this template with three
arguments never fails (proved below). -/
def frameFor (eventId : Nat) (m : Msg) : String :=
  String.mk ((pyFormat sseTemplate [Nat.repr eventId, m.channel, m.data]).getD [])

/-- The `for message in pubsub.listen():` loop of `_stream`
(notification.py:52-58): starting from the current `event_id`, yield one
frame per message and increment `event_id` by 1 each time. -/
def streamLoop : Nat → List Msg → List String
  | _, [] => []
  | eventId, m :: ms => frameFor eventId m :: streamLoop (eventId + 1) ms

/-- `NotificationView._stream` (notification.py:44-58) as the sequence of
strings the generator yields when the broker delivers `msgs`: first the
empty priming yield (line 49), then the frame loop with `event_id = 1`
(lines 52-58). -/
def stream (msgs : List Msg) : List String :=
  "" :: streamLoop 1 msgs

/-! ## Notification view: raw broker messages and the event source -/

/-- The `type` field of a raw redis pubsub message: a genuine data message, or
one of the subscription-management acknowledgements the bus emits. -/
inductive RawKind
  | dataMsg
  | subscribeAck
  | unsubscribeAck
  | psubscribeAck
  | punsubscribeAck
deriving DecidableEq, Repr

/-- A raw message as received from the broker connection, before filtering. -/
structure RawMsg where
  kind : RawKind
  channel : String
  data : String
deriving DecidableEq, Repr

/-- Whether a raw broker message is a genuine data message (as opposed to
subscription-management noise). -/
def RawMsg.isData (r : RawMsg) : Bool :=
  match r.kind with
  | RawKind.dataMsg => true
  | _ => false

/-- Modelled from the spec: the broker client's event source "yields only
genuine data events, never meta/control messages" when opened with
subscription acknowledgements ignored (spec 4.2).  The filtering itself lives
in the redis client library, outside the provided sources; the view opens the
pubsub with `ignore_subscribe_messages=True` (notification.py:34).  With the
flag set, acknowledgement messages are dropped; without it they would be
yielded like any other message. -/
def listen (ignoreSubscribeMessages : Bool) (raws : List RawMsg) : List Msg :=
  raws.filterMap (fun r =>
    match r.kind with
    | RawKind.dataMsg => some ⟨r.channel, r.data⟩
    | _ => if ignoreSubscribeMessages then none else some ⟨r.channel, r.data⟩)

/-! ## Notification view: the `index` endpoint -/

/-- The fixed channel registry `NotificationView.CHANNELS`
(notification.py:22-25). -/
def CHANNELS : List String := ["avatar", "profile"]

/-- The HTTP-level failure the view can raise (notification.py:42). -/
inductive HttpError
  | notAcceptable (message : String)
deriving DecidableEq, Repr

/-- A successful streaming response: the declared content type and the
sequence of strings the generator body yields, given the raw messages the
broker delivers on the subscription. -/
structure StreamResponse where
  contentType : String
  body : List String
deriving DecidableEq, Repr

/-- `NotificationView.index` (notification.py:29-42).  The accept gate is the
exact string comparison `request.headers.get('Accept') == 'text/event-stream'`
(line 32); `headers.get` yields `None` when the header is missing, embedded as
`Option.none`.  On acceptance the view subscribes the pubsub to the registry
channels (one subscribe call, line 35) and returns the streaming response over
`_stream` (line 38); otherwise it raises `NotAcceptable` (lines 40-42) without
touching the broker.  The result is paired with the number of broker
subscribe calls performed. -/
def index (accept : Option String) (raws : List RawMsg) :
    Except HttpError StreamResponse × Nat :=
  if accept = some ("text/event-stream") then
    (Except.ok ⟨"text/event-stream", stream (listen true raws)⟩, 1)
  else
    (Except.error (HttpError.notAcceptable
      ("This endpoint is only for use with server-sent events (SSE).")), 0)

/-! ## Notification view: operation trace of the generator -/

/-- One observable resource operation of the `_stream` generator: yielding a
string to the client transport, or releasing (closing/unsubscribing) the
broker subscription handle. -/
inductive StreamOp
  | yieldStr (s : String)
  | closeSub
deriving DecidableEq, Repr

/-- Operation trace of the `for message in pubsub.listen():` loop
(notification.py:54-58): one yield per message, nothing else. -/
def streamLoopTrace : Nat → List Msg → List StreamOp
  | _, [] => []
  | eventId, m :: ms =>
      StreamOp.yieldStr (frameFor eventId m) :: streamLoopTrace (eventId + 1) ms

/-- The full operation trace of `_stream` (notification.py:44-58): the priming
yield followed by the loop's yields.  The source body contains no `close()` or
`unsubscribe()` call and no try/finally block, so no `closeSub` operation can
appear.  A teardown at any point (client disconnect, broker loss, shutdown)
stops the generator at some yield, i.e. the executed operations are a
`List.take` truncation of this trace. -/
def streamTrace (msgs : List Msg) : List StreamOp :=
  StreamOp.yieldStr "" :: streamLoopTrace 1 msgs

/-- Number of subscription-release operations in a trace. -/
def closeCount (t : List StreamOp) : Nat :=
  t.countP (fun op =>
    match op with
    | StreamOp.closeSub => true
    | _ => false)

/-! ## Subscription session open (channel validation) -/

/-- Failure mode of opening a subscription session. -/
inductive OpenError
  | invalidChannel (channel : String)
deriving DecidableEq, Repr

/-- A live subscription session holding its subscribed channels. -/
structure Session where
  channels : List String
deriving DecidableEq, Repr

/-- Modelled from the spec: `open(subscriber_identity, channels) -> Session |
fails with InvalidChannel` (spec 4.3, 4.1, 7).  The session component that
validates channel names against the registry is not in the provided sources
(the view only ever subscribes to the fixed registry set itself).  Subscribing
to a channel outside the registry fails with `InvalidChannel` naming the
offending channel and "opens no broker resources".  The result is paired with
the number of broker handles opened. -/
def sessionOpen (channels : List String) : Except OpenError Session × Nat :=
  match channels.find? (fun c => !(decide (c ∈ CHANNELS))) with
  | some c => (Except.error (OpenError.invalidChannel c), 0)
  | none => (Except.ok ⟨channels⟩, 1)

/-! ## Helper lemmas -/

theorem streamLoop_length (msgs : List Msg) :
    ∀ s : Nat, (streamLoop s msgs).length = msgs.length := by
  induction msgs with
  | nil => intro s; rfl
  | cons m ms ih => intro s; simp [streamLoop, ih]

theorem streamLoop_getElem? (msgs : List Msg) :
    ∀ s i : Nat,
      (streamLoop s msgs)[i]? = (msgs[i]?).map (fun m => frameFor (s + i) m) := by
  induction msgs with
  | nil => intro s i; simp [streamLoop]
  | cons m ms ih =>
    intro s i
    cases i with
    | zero => simp [streamLoop]
    | succ j =>
      have h := ih (s + 1) j
      have hs : s + 1 + j = s + (j + 1) := by omega
      rw [hs] at h
      simpa [streamLoop] using h

theorem frameFor_concat (eventId : Nat) (m : Msg) :
    frameFor eventId m =
      "id: " ++ Nat.repr eventId ++ "\nevent: " ++ m.channel ++
        "\ndata: " ++ m.data ++ "\n\n" := by
  have h : pyFormat sseTemplate [Nat.repr eventId, m.channel, m.data] =
      some (("id: " ++ Nat.repr eventId ++ "\nevent: " ++ m.channel ++
        "\ndata: " ++ m.data ++ "\n\n").data) := by
    simp [pyFormat, sseTemplate, lbrace, rbrace, String.data_append]
  apply String.ext
  simp [frameFor, h, String.data_append]

theorem frameFor_ne_empty (eventId : Nat) (m : Msg) : frameFor eventId m ≠ "" := by
  rw [frameFor_concat]
  intro h
  have hl := congrArg String.length h
  have h4 : ("id: ").length = 4 := rfl
  have h0 : ("" : String).length = 0 := rfl
  simp only [String.length_append, h4, h0] at hl
  omega

theorem streamLoopTrace_all_yield (msgs : List Msg) :
    ∀ s : Nat, ∀ op ∈ streamLoopTrace s msgs,
      ∃ f : String, op = StreamOp.yieldStr f := by
  induction msgs with
  | nil => intro s op hop; simp [streamLoopTrace] at hop
  | cons m ms ih =>
    intro s op hop
    simp only [streamLoopTrace, List.mem_cons] at hop
    rcases hop with h | h
    · exact ⟨_, h⟩
    · exact ih (s + 1) op h

/-! ## Claim theorems -/

/-- C1: for every sequence of broker messages delivered to a session, the
strings `_stream` yields are, after the priming flush, exactly one frame per
message in reception order: the output has length `N + 1`, and the frame at
output position `i + 1` carries sequence id `i + 1` and encodes the `i`-th
received message — so the emitted sequence ids are exactly `1..N`, in order,
with no gaps, repeats, reordering, coalescing, or drops. -/
theorem stream_seq_ids (msgs : List Msg) :
    (stream msgs).length = msgs.length + 1 ∧
    ∀ i : Nat, ∀ m : Msg, msgs[i]? = some m →
      (stream msgs)[i + 1]? = some (frameFor (i + 1) m) := by
  constructor
  · simp [stream, streamLoop_length]
  · intro i m hm
    have h := streamLoop_getElem? msgs 1 i
    rw [hm, Option.map_some'] at h
    rw [Nat.add_comm 1 i] at h
    simpa [stream] using h

/-- Witness for C1: with two concrete messages, the second frame carries
sequence id 2 and encodes the second message. -/
theorem stream_seq_ids_witness :
    (stream [Msg.mk ("profile") ("42"), Msg.mk ("avatar") ("7")])[1 + 1]? =
      some (frameFor (1 + 1) (Msg.mk ("avatar") ("7"))) :=
  (stream_seq_ids [Msg.mk ("profile") ("42"), Msg.mk ("avatar") ("7")]).2
    1 (Msg.mk ("avatar") ("7")) rfl

/-- C2: encoding an event is a pure 1:1 function: the frame produced for
sequence id `s`, channel `c`, payload `p` is exactly
`id: <decimal s>\nevent: <c>\ndata: <p>\n\n`, channel and payload embedded
verbatim with no escaping, truncation, or interpretation. -/
theorem frame_encoding_exact (s : Nat) (c p : String) :
    frameFor s (Msg.mk c p) =
      "id: " ++ Nat.repr s ++ "\nevent: " ++ c ++ "\ndata: " ++ p ++ "\n\n" :=
  frameFor_concat s (Msg.mk c p)

/-- C3: a request whose Accept header is not the streaming content type fails
with `NotAcceptable` (carrying the view's message) and performs zero broker
subscribe calls — no session state is created. -/
theorem index_rejects_without_subscribe (accept : Option String)
    (raws : List RawMsg) (h : accept ≠ some ("text/event-stream")) :
    (index accept raws).1 = Except.error (HttpError.notAcceptable
      ("This endpoint is only for use with server-sent events (SSE).")) ∧
    (index accept raws).2 = 0 := by
  simp [index, h]

/-- Witness for C3: a request with no Accept header is rejected with zero
subscribe calls. -/
theorem index_rejects_without_subscribe_witness :
    (index none []).1 = Except.error (HttpError.notAcceptable
      ("This endpoint is only for use with server-sent events (SSE).")) ∧
    (index none []).2 = 0 :=
  index_rejects_without_subscribe none [] (by simp)

/-- C4 (refuted by the code): on every teardown truncation of the `_stream`
generator's operation trace — client disconnect, broker loss, or shutdown at
any point — the number of subscription-release operations performed is zero,
not one: the source body has no `close()`/`unsubscribe()` call and no
try/finally block, so the broker handle is never explicitly released. -/
theorem stream_trace_never_closes (msgs : List Msg) (k : Nat) :
    closeCount ((streamTrace msgs).take k) = 0 := by
  rw [closeCount, List.countP_eq_zero]
  intro op hop
  have hmem := List.take_subset k (streamTrace msgs) hop
  simp only [streamTrace, List.mem_cons] at hmem
  rcases hmem with h | h
  · subst h; simp
  · obtain ⟨f, rfl⟩ := streamLoopTrace_all_yield msgs 1 op h
    simp

/-- C5: the very first string the stream yields is the empty priming flush,
and every string yielded at a later position is nonempty — the empty flush
precedes any real event frame. -/
theorem stream_priming_first (msgs : List Msg) :
    (stream msgs).head? = some ("") ∧
    ∀ i : Nat, ∀ f : String, (stream msgs)[i + 1]? = some f → f ≠ "" := by
  constructor
  · rfl
  · intro i f hf
    simp only [stream, List.getElem?_cons_succ] at hf
    rw [streamLoop_getElem? msgs 1 i] at hf
    cases hm : msgs[i]? with
    | none => rw [hm] at hf; simp at hf
    | some m =>
      rw [hm] at hf
      simp only [Option.map_some'] at hf
      obtain rfl := Option.some.inj hf
      exact frameFor_ne_empty (1 + i) m

/-- Witness for C5: with one concrete message, the head is the empty flush and
the frame yielded at position 1 is nonempty. -/
theorem stream_priming_first_witness :
    (stream [Msg.mk ("profile") ("42")]).head? = some ("") ∧
    frameFor 1 (Msg.mk ("profile") ("42")) ≠ "" :=
  ⟨(stream_priming_first [Msg.mk ("profile") ("42")]).1,
   (stream_priming_first [Msg.mk ("profile") ("42")]).2 0
     (frameFor 1 (Msg.mk ("profile") ("42"))) rfl⟩

/-- C6: opening a subscription naming any channel outside the fixed registry
fails with `InvalidChannel` pointing at an offending channel — never silently
ignored or dropped — and opens zero broker handles. -/
theorem sessionOpen_invalid_channel (channels : List String) (c : String)
    (hc : c ∈ channels) (hreg : c ∉ CHANNELS) :
    (∃ c0 : String, c0 ∈ channels ∧ c0 ∉ CHANNELS ∧
      (sessionOpen channels).1 = Except.error (OpenError.invalidChannel c0)) ∧
    (sessionOpen channels).2 = 0 := by
  cases hfind : channels.find? (fun x => !(decide (x ∈ CHANNELS))) with
  | none =>
    exfalso
    have hall := List.find?_eq_none.mp hfind c hc
    simp at hall
    exact hreg hall
  | some c0 =>
    have hp := List.find?_some hfind
    have hmem := List.mem_of_find?_eq_some hfind
    have hnotreg : c0 ∉ CHANNELS := by simpa using hp
    refine ⟨⟨c0, hmem, hnotreg, ?_⟩, ?_⟩
    · simp [sessionOpen, hfind]
    · simp [sessionOpen, hfind]

/-- Witness for C6: opening with a channel outside the registry fails with
`InvalidChannel` and opens no broker handle. -/
theorem sessionOpen_invalid_channel_witness :
    (∃ c0 : String, c0 ∈ ["avatar", "bogus"] ∧ c0 ∉ CHANNELS ∧
      (sessionOpen ["avatar", "bogus"]).1 =
        Except.error (OpenError.invalidChannel c0)) ∧
    (sessionOpen ["avatar", "bogus"]).2 = 0 :=
  sessionOpen_invalid_channel ["avatar", "bogus"] ("bogus")
    (by decide) (by decide)

/-- C7: with acknowledgements ignored (as the view opens the pubsub), the
event source yields exactly the genuine data messages: meta/control messages
are suppressed, produce no frame, and consume no sequence id — the stream is
identical to the stream over the data messages alone. -/
theorem listen_suppresses_meta (raws : List RawMsg) :
    listen true raws =
      (raws.filter RawMsg.isData).map (fun r => Msg.mk r.channel r.data) ∧
    stream (listen true raws) =
      stream (listen true (raws.filter RawMsg.isData)) := by
  have key : ∀ rs : List RawMsg, listen true rs =
      (rs.filter RawMsg.isData).map (fun r => Msg.mk r.channel r.data) := by
    intro rs
    induction rs with
    | nil => rfl
    | cons r rs ih =>
      cases hk : r.kind <;>
        simp [listen, List.filterMap_cons, RawMsg.isData, hk, ← ih, listen]
  refine ⟨key raws, ?_⟩
  rw [key raws, key (raws.filter RawMsg.isData), List.filter_filter]
  simp

/-- C8: content negotiation is exact string equality: a request is accepted
iff its Accept header is literally `text/event-stream`; a missing header or a
header merely listing the streaming type among others is rejected with
`NotAcceptable`. -/
theorem index_accept_exact_equality (accept : Option String)
    (raws : List RawMsg) :
    ((index accept raws).1.isOk = true ↔ accept = some ("text/event-stream")) ∧
    (accept ≠ some ("text/event-stream") →
      (index accept raws).1 = Except.error (HttpError.notAcceptable
        ("This endpoint is only for use with server-sent events (SSE)."))) := by
  by_cases h : accept = some ("text/event-stream") <;>
    simp [index, h, Except.isOk, Except.toBool]

/-- Witness for C8: an Accept header listing the streaming type among others
(`text/event-stream, */*`) is nevertheless rejected. -/
theorem index_accept_exact_equality_witness :
    (index (some ("text/event-stream, */*")) []).1 =
      Except.error (HttpError.notAcceptable
        ("This endpoint is only for use with server-sent events (SSE).")) :=
  (index_accept_exact_equality (some ("text/event-stream, */*")) []).2
    (by decide)

/-! ## Profile model (src/lib/model/profile.py) -/

/-- Timestamps (`datetime.datetime` values) modelled as abstract instants:
microseconds since an epoch.  The claims below depend only on equality of
instants and on formatting being a function. -/
abbrev DateTime := Nat

/-- Rendering of an instant (`datetime.isoformat`), modelled as an abstract
injective-enough rendering; the claims below never inspect its shape. -/
def isoformat (t : DateTime) : String := Nat.repr t

/-- `datetime.replace(microsecond=0)` on an instant measured in
microseconds. -/
def dropMicroseconds (t : DateTime) : DateTime := t / 1000000 * 1000000

/-- The keys of the `SOCIAL_SITES` dict (profile.py:14-17); the `site` column
is constrained to them by `Enum(*SOCIAL_SITES.keys())` (profile.py:52). -/
inductive Site
  | twitter
  | instagram
deriving DecidableEq, Repr

/-- The raw column value of a site key. -/
def Site.key : Site → String
  | Site.twitter => "twitter"
  | Site.instagram => "instagram"

/-- The `SOCIAL_SITES` dict lookup (profile.py:14-17), as used by
`Profile.site_name` (profile.py:192-195). -/
def SOCIAL_SITES : Site → String
  | Site.twitter => "Twitter"
  | Site.instagram => "Instagram"

/-- `ProfileUsername` (profile.py:198-232): a username row with optional
validity instants.  `__init__` stores a passed `datetime` directly
(profile.py:222-224, 228-230); the string-parsing branch (`dateutil.parser`,
lines 226, 232) is external-library behavior never exercised by
`Profile.__init__`, which always passes `datetime` values, so the date
arguments are embedded as optional instants. -/
structure ProfileUsername where
  username : String
  start_date : Option DateTime := none
  end_date : Option DateTime := none
deriving DecidableEq, Repr

/-- `ProfileUsername.__init__(username, start_date=None, end_date=None)`
(profile.py:217-232): the columns hold exactly the passed optional values. -/
def ProfileUsername.init (username : String)
    (start_date end_date : Option DateTime) : ProfileUsername :=
  ⟨username, start_date, end_date⟩

/-- `ProfileNote` (profile.py:235-265): category, body, owning profile id and
creation instant (the `created_at` column defaults to the row's
current timestamp when no value is passed, profile.py:246-247). -/
structure ProfileNote where
  id : Option Nat := none
  category : String
  body : String
  profile_id : Nat
  created_at : DateTime
deriving DecidableEq, Repr

/-- The dictionary produced by `ProfileNote.as_dict` (profile.py:267-274). -/
structure NoteDict where
  id : Option Nat
  category : String
  body : String
  profile_id : Nat
  created_at : String
deriving DecidableEq, Repr

/-- `ProfileNote.as_dict` (profile.py:267-274): field passthrough with
`created_at.isoformat()`. -/
def ProfileNote.as_dict (n : ProfileNote) : NoteDict :=
  ⟨n.id, n.category, n.body, n.profile_id, isoformat n.created_at⟩

/-- Modelled from the spec scope: the `Label` model (model/label.py) is not
among the provided sources — serialization of domain objects is an external
collaborator (spec 1).  For the ordering claim only the serialized dict's
`name` key matters; the rest of the row is opaque. -/
structure Label where
  name : String
  rest : String := ""
deriving DecidableEq, Repr

/-- The dictionary produced by `Label.as_dict`, keyed by the label's name with
the remaining payload opaque. -/
structure LabelDict where
  name : String
  rest : String := ""
deriving DecidableEq, Repr

/-- Modelled from the spec scope: `Label.as_dict` serializes the row to a dict
carrying its `name` key. -/
def Label.as_dict (l : Label) : LabelDict := ⟨l.name, l.rest⟩

/-- `Profile` (profile.py:43-143): the columns and relationships `as_dict`
reads, plus the `usernames` relationship `__init__` appends to.  Integer
columns are optional integers; the float `score` column is an opaque
passthrough for these claims and is embedded as an optional integer. -/
structure Profile where
  id : Option Nat := none
  site : Site
  upstream_id : String
  username : String
  is_stub : Bool := false
  name : Option String := none
  description : Option String := none
  homepage : Option String := none
  join_date : Option DateTime := none
  last_update : DateTime
  follower_count : Option Int := none
  friend_count : Option Int := none
  post_count : Option Int := none
  lang : Option String := none
  location : Option String := none
  is_private : Option Bool := none
  time_zone : Option String := none
  is_interesting : Option Bool := none
  score : Option Int := none
  usernames : List ProfileUsername := []
  notes : List ProfileNote := []
  labels : List Label := []
deriving DecidableEq, Repr

/-- The `username` argument of `Profile.__init__`: the source checks
`isinstance(username, ProfileUsername)` (profile.py:152) and otherwise treats
the argument as a plain string. -/
inductive UsernameArg
  | str (s : String)
  | pu (u : ProfileUsername)
deriving DecidableEq, Repr

/-- `Profile.__init__(site, upstream_id, username, is_stub=False)`
(profile.py:145-160): sets `site`, `upstream_id`, `is_stub`; for a
`ProfileUsername` argument copies its `.username` into the `username` column
and appends the object itself to the (initially empty) `usernames`
collection; for a plain string takes `now = datetime.now()` — passed here as
the construction instant — and appends `ProfileUsername(username,
start_date=now, end_date=now)`.  `last_update` stands for the row's
current-timestamp default. -/
def Profile.init (site : Site) (upstream_id : String) (username : UsernameArg)
    (is_stub : Bool) (now : DateTime) : Profile :=
  match username with
  | UsernameArg.pu u =>
      { site := site, upstream_id := upstream_id, is_stub := is_stub,
        username := u.username, usernames := [u], last_update := now }
  | UsernameArg.str s =>
      { site := site, upstream_id := upstream_id, is_stub := is_stub,
        username := s,
        usernames := [ProfileUsername.init s (some now) (some now)],
        last_update := now }

/-- `Profile.site_name` (profile.py:192-195). -/
def Profile.site_name (p : Profile) : String := SOCIAL_SITES p.site

/-- The dictionary produced by `Profile.as_dict` (profile.py:162-190). -/
structure ProfileDict where
  description : Option String
  follower_count : Option Int
  friend_count : Option Int
  is_interesting : Option Bool
  id : Option Nat
  is_stub : Bool
  join_date : Option String
  labels : List LabelDict
  last_update : String
  location : Option String
  name : Option String
  notes : List NoteDict
  post_count : Option Int
  is_private : Option Bool
  score : Option Int
  site : String
  site_name : String
  upstream_id : String
  username : String
  time_zone : Option String
deriving DecidableEq, Repr

/-- `Profile.as_dict` (profile.py:162-190): serializes each label and note,
sorts the label dicts ascending by their `name` key and the note dicts
descending by their `created_at` key (`sorted(..., reverse=True)`), and maps
the remaining columns through.  Python's stable comparison sort is embedded
as insertion sort over the key order; `self.join_date and
self.join_date.isoformat()` is the optional map of `isoformat`. -/
def Profile.as_dict (p : Profile) : ProfileDict :=
  { description := p.description,
    follower_count := p.follower_count,
    friend_count := p.friend_count,
    is_interesting := p.is_interesting,
    id := p.id,
    is_stub := p.is_stub,
    join_date := p.join_date.map isoformat,
    labels := List.insertionSort (fun a b => a.name ≤ b.name)
      (p.labels.map Label.as_dict),
    last_update := isoformat (dropMicroseconds p.last_update),
    location := p.location,
    name := p.name,
    notes := List.insertionSort (fun a b => b.created_at ≤ a.created_at)
      (p.notes.map ProfileNote.as_dict),
    post_count := p.post_count,
    is_private := p.is_private,
    score := p.score,
    site := p.site.key,
    site_name := p.site_name,
    upstream_id := p.upstream_id,
    username := p.username,
    time_zone := p.time_zone }

/-- C9: after constructing a `Profile` with any site, upstream id and
username, the usernames collection is non-empty; the `username` column equals
the given string (or the given `ProfileUsername`'s username attribute); and
when a plain string is passed, exactly one `ProfileUsername` is appended
whose start and end dates both equal the construction instant. -/
theorem profile_init_usernames (site : Site) (uid : String) (arg : UsernameArg)
    (stub : Bool) (now : DateTime) :
    (Profile.init site uid arg stub now).usernames ≠ [] ∧
    (Profile.init site uid arg stub now).username =
      (match arg with
       | UsernameArg.str s => s
       | UsernameArg.pu u => u.username) ∧
    (∀ s : String, arg = UsernameArg.str s →
      (Profile.init site uid arg stub now).usernames =
        [ProfileUsername.init s (some now) (some now)]) ∧
    (∀ u : ProfileUsername, arg = UsernameArg.pu u →
      (Profile.init site uid arg stub now).usernames = [u]) := by
  cases arg <;> simp [Profile.init, ProfileUsername.init]

/-- Witness for C9: constructing with the plain string `alice` at instant 5
appends exactly one `ProfileUsername` with both dates equal to 5. -/
theorem profile_init_usernames_witness :
    (Profile.init Site.twitter ("123") (UsernameArg.str ("alice"))
      false 5).usernames = [ProfileUsername.init ("alice") (some 5) (some 5)] :=
  (profile_init_usernames Site.twitter ("123") (UsernameArg.str ("alice"))
    false 5).2.2.1 ("alice") rfl

/-- C10: for every profile, `as_dict` returns its labels sorted ascending by
their `name` key and its notes sorted descending by their `created_at` key —
each a permutation of the serialized relationship rows — regardless of the
order the relationships hold them in. -/
theorem as_dict_sorts_labels_and_notes (p : Profile) :
    List.Sorted (fun a b : LabelDict => a.name ≤ b.name)
      (Profile.as_dict p).labels ∧
    ((Profile.as_dict p).labels).Perm (p.labels.map Label.as_dict) ∧
    List.Sorted (fun a b : NoteDict => b.created_at ≤ a.created_at)
      (Profile.as_dict p).notes ∧
    ((Profile.as_dict p).notes).Perm (p.notes.map ProfileNote.as_dict) := by
  haveI hLT : IsTotal LabelDict (fun a b => a.name ≤ b.name) :=
    ⟨fun a b => le_total a.name b.name⟩
  haveI hLR : IsTrans LabelDict (fun a b => a.name ≤ b.name) :=
    ⟨fun _ _ _ hab hbc => le_trans hab hbc⟩
  haveI hNT : IsTotal NoteDict (fun a b => b.created_at ≤ a.created_at) :=
    ⟨fun a b => (le_total a.created_at b.created_at).symm⟩
  haveI hNR : IsTrans NoteDict (fun a b => b.created_at ≤ a.created_at) :=
    ⟨fun _ _ _ hab hbc => le_trans hbc hab⟩
  refine ⟨?_, ?_, ?_, ?_⟩
  · exact List.sorted_insertionSort _ _
  · exact List.perm_insertionSort _ _
  · exact List.sorted_insertionSort _ _
  · exact List.perm_insertionSort _ _

end Quickpin
